import Mathlib

/-!
Shallow embedding of `src/app/routes/org-signup.tsx`: the organization
sign-up action that provisions, in order, a FusionAuth tenant, a
tenant-scoped API key, an application, and a user registration.

The identity provider is modelled as an environment of response functions
(one per remote operation).  Each provider call resolves (`CallOutcome.ok`,
a 2xx whose payload may still lack the expected id/key field, hence the
`Option`) or rejects (`CallOutcome.err`, carrying the HTTP status code and
the error body, as the FusionAuth client rejects non-2xx responses with a
`ClientResponse`).  Running the action yields both the final result and the
trace of provider calls issued, each tagged with the client it was issued
through, so that claims about which calls happen, with which payloads and
through which credentials, are statable.
-/

namespace OrgSignup

/-- A role entry as in the `configuredRoles` literal of the source. -/
structure Role where
  name : String
  description : String
  isDefault : Bool
deriving DecidableEq

/-- `configuredRoles` from the source: the fixed two-role list. -/
def configuredRoles : List Role :=
  [ { name := "admin"
    , description := "Admin role inside the organization"
    , isDefault := false }
  , { name := "member"
    , description := "Member role"
    , isDefault := true } ]

/-- The `tenant` object inside the `createTenant` payload. -/
structure TenantBody where
  name : String
  issuer : String
deriving DecidableEq

/-- The `tenantConfig` payload of `createTenant`. -/
structure TenantRequest where
  sourceTenantId : String
  tenant : TenantBody
deriving DecidableEq

/-- `apiKey.metaData.attributes` in the `createAPIKey` payload. -/
structure ApiKeyAttributes where
  description : String
deriving DecidableEq

/-- `apiKey.metaData` in the `createAPIKey` payload. -/
structure ApiKeyMetaData where
  attributes : ApiKeyAttributes
deriving DecidableEq

/-- `apiKey` in the `createAPIKey` payload. -/
structure ApiKeyBody where
  metaData : ApiKeyMetaData
  tenantId : String
deriving DecidableEq

/-- The `apiKeyRequest` payload of `createAPIKey`. -/
structure ApiKeyRequest where
  apiKey : ApiKeyBody
deriving DecidableEq

/-- `loginConfiguration` inside the application config. -/
structure LoginConfiguration where
  generateRefreshTokens : Bool
deriving DecidableEq

/-- `newFusionAuthAppConfig` in `createApplication`. -/
structure ApplicationBody where
  name : String
  roles : List Role
  loginConfiguration : LoginConfiguration
deriving DecidableEq

/-- The payload of `createApplication`: the application config plus the
top-level `role` field (`configuredRoles[0]`, hence an `Option`). -/
structure ApplicationRequest where
  application : ApplicationBody
  role : Option Role
deriving DecidableEq

/-- `registration` inside the `register` payload. -/
structure RegistrationBody where
  applicationId : String
deriving DecidableEq

/-- The `registrationRequest` payload of `register`: the form entries
passed through verbatim as `user`, plus the registration target. -/
structure RegistrationRequest where
  user : List (String × String)
  registration : RegistrationBody
deriving DecidableEq

/-- Identity of the provider client a call is issued through:
`getFusionAuthClient(config)` for a named configuration, or
`new FusionAuthClient(apiKey, baseUrl)` for a freshly constructed one. -/
inductive ClientId where
  | fusionAuthClientFor (config : String)
  | newClient (apiKey : String) (baseUrl : String)
deriving DecidableEq

/-- One provider invocation: which operation, through which client, with
which payload. -/
inductive Event where
  | createTenantCall (client : ClientId) (req : TenantRequest)
  | createAPIKeyCall (client : ClientId) (req : ApiKeyRequest)
  | createApplicationCall (client : ClientId) (req : ApplicationRequest)
  | registerCall (client : ClientId) (req : RegistrationRequest)
deriving DecidableEq

/-- Outcome of one provider call: resolved with a payload, or rejected
with an HTTP status code and an error body. -/
inductive CallOutcome (α : Type) where
  | ok (value : α)
  | err (statusCode : Nat) (body : String)
deriving DecidableEq

/-- The external collaborators: the default client configuration
(`getFusionAuthClient("default").tenantId`, `FUSIONAUTH_BASE_URL`) and the
provider response to each operation, as a function of the payload. -/
structure ProviderEnv where
  defaultTenantId : String
  baseUrl : String
  createTenantResp : TenantRequest → CallOutcome (Option String)
  createAPIKeyResp : ApiKeyRequest → CallOutcome (Option String)
  createApplicationResp : ApplicationRequest → CallOutcome (Option String)
  registerResp : RegistrationRequest → CallOutcome Unit

/-- An error escaping the action uncaught: the `invariant` throw, a
`new Error(...)` thrown on an empty provider payload, or a rejected
provider call from steps 1 to 3 propagating as-is. -/
inductive ThrownError where
  | invariantViolation (message : String)
  | appError (message : String)
  | clientError (statusCode : Nat) (body : String)
deriving DecidableEq

/-- The action result: a `redirect(target)`, a `json({error:{message}},
{status})`, or an uncaught throw. -/
inductive ActionResult where
  | redirected (target : String)
  | jsonError (status : Nat) (message : String)
  | thrown (e : ThrownError)
deriving DecidableEq

/-- `Object.fromEntries(formData).<key>`: the value of the last entry for
`key`, since later entries overwrite earlier ones. -/
def formField (formData : List (String × String)) (key : String) :
    Option String :=
  ((formData.filter (fun p => p.1 = key)).map (fun p => p.2)).getLast?

/-- The `tenantConfig` built by `createTenant`. -/
def tenantRequestFor (env : ProviderEnv) (organizationId : String) :
    TenantRequest :=
  { sourceTenantId := env.defaultTenantId
  , tenant := { name := organizationId, issuer := "saasbp.io" } }

/-- The `apiKeyRequest` built by `createApiKey`. -/
def apiKeyRequestFor (organizationName : String) (tenantId : String) :
    ApiKeyRequest :=
  { apiKey :=
    { metaData :=
      { attributes :=
        { description := "API key for " ++ organizationName } }
    , tenantId := tenantId } }

/-- The `newFusionAuthAppConfig` built by `createApplication`. -/
def appConfigFor (organizationId : String) : ApplicationBody :=
  { name := organizationId ++ " App"
  , roles := configuredRoles
  , loginConfiguration := { generateRefreshTokens := true } }

/-- The full `createApplication` payload: the config plus the top-level
`role: configuredRoles[0]`. -/
def applicationRequestFor (organizationId : String) : ApplicationRequest :=
  { application := appConfigFor organizationId
  , role := configuredRoles.head? }

/-- Error message thrown when the tenant response lacks an id. -/
def tenantEmptyMsg : String :=
  "Couldn\x27t create tenant. FusionAuth response was empty!"

/-- Error message thrown when the API key response lacks a key. -/
def apiKeyEmptyMsg : String :=
  "FusionAuth API key create call was successful, but no API key was returned!"

/-- Error message thrown when the application response lacks an id. -/
def appEmptyMsg : String :=
  "An error occurred while creating the FusionAuth application."

/-- `invariant(user.organization, ...)` message. -/
def invariantMsg : String := "Organization name is required"

/-- `createTenant(organizationId)`: calls the provider through the
default client and yields the tenant id, or throws if the call rejects or
the id field is absent or falsy (the source checks
`!result?.response?.tenant?.id`, so the empty string also fails). -/
def createTenant (env : ProviderEnv) (organizationId : String) :
    List Event × Except ThrownError String :=
  let tenantConfig := tenantRequestFor env organizationId
  let trace :=
    [Event.createTenantCall (ClientId.fusionAuthClientFor "default")
      tenantConfig]
  match env.createTenantResp tenantConfig with
  | CallOutcome.err s body =>
      (trace, Except.error (ThrownError.clientError s body))
  | CallOutcome.ok idOpt =>
      match idOpt with
      | none => (trace, Except.error (ThrownError.appError tenantEmptyMsg))
      | some id =>
          if id = "" then
            (trace, Except.error (ThrownError.appError tenantEmptyMsg))
          else (trace, Except.ok id)

/-- `createApiKey(organizationName, tenantId)`: requests a key restricted
to `tenantId` through the default client; throws if the call rejects or
the key field is absent or falsy. -/
def createApiKey (env : ProviderEnv) (organizationName : String)
    (tenantId : String) : List Event × Except ThrownError String :=
  let apiKeyRequest := apiKeyRequestFor organizationName tenantId
  let trace :=
    [Event.createAPIKeyCall (ClientId.fusionAuthClientFor "default")
      apiKeyRequest]
  match env.createAPIKeyResp apiKeyRequest with
  | CallOutcome.err s body =>
      (trace, Except.error (ThrownError.clientError s body))
  | CallOutcome.ok keyOpt =>
      match keyOpt with
      | none => (trace, Except.error (ThrownError.appError apiKeyEmptyMsg))
      | some key =>
          if key = "" then
            (trace, Except.error (ThrownError.appError apiKeyEmptyMsg))
          else (trace, Except.ok key)

/-- `createApplication(organizationId, lockedApiKey)`: constructs a new
client from the scoped key and the base URL and creates the application;
throws if the call rejects or the application id is absent or falsy. -/
def createApplication (env : ProviderEnv) (organizationId : String)
    (lockedApiKey : String) : List Event × Except ThrownError String :=
  let req := applicationRequestFor organizationId
  let client := ClientId.newClient lockedApiKey env.baseUrl
  let trace := [Event.createApplicationCall client req]
  match env.createApplicationResp req with
  | CallOutcome.err s body =>
      (trace, Except.error (ThrownError.clientError s body))
  | CallOutcome.ok idOpt =>
      match idOpt with
      | none => (trace, Except.error (ThrownError.appError appEmptyMsg))
      | some id =>
          if id = "" then
            (trace, Except.error (ThrownError.appError appEmptyMsg))
          else (trace, Except.ok id)

/-- The route `action`: validates the `organization` field, then runs the
four provisioning steps in order, short-circuiting on the first failure.
Only the final `register` call sits in a `try`: its rejection becomes a
`json` error result, while earlier failures escape as thrown errors.
Returns the final result together with the trace of provider calls. -/
def action (env : ProviderEnv) (formData : List (String × String)) :
    List Event × ActionResult :=
  match formField formData "organization" with
  | none =>
      ([], ActionResult.thrown (ThrownError.invariantViolation invariantMsg))
  | some org =>
      if org = "" then
        ([], ActionResult.thrown (ThrownError.invariantViolation invariantMsg))
      else
        let orgName := org
        match createTenant env orgName with
        | (t1, Except.error e) => (t1, ActionResult.thrown e)
        | (t1, Except.ok tenantId) =>
            match createApiKey env orgName tenantId with
            | (t2, Except.error e) => (t1 ++ t2, ActionResult.thrown e)
            | (t2, Except.ok lockedApiKey) =>
                match createApplication env orgName lockedApiKey with
                | (t3, Except.error e) =>
                    (t1 ++ t2 ++ t3, ActionResult.thrown e)
                | (t3, Except.ok applicationId) =>
                    let registrationRequest : RegistrationRequest :=
                      { user := formData
                      , registration := { applicationId := applicationId } }
                    let t4 :=
                      [Event.registerCall
                        (ClientId.fusionAuthClientFor tenantId)
                        registrationRequest]
                    match env.registerResp registrationRequest with
                    | CallOutcome.ok _ =>
                        (t1 ++ t2 ++ t3 ++ t4,
                          ActionResult.redirected
                            (orgName ++ ".saasbp.io/signin"))
                    | CallOutcome.err s body =>
                        (t1 ++ t2 ++ t3 ++ t4,
                          ActionResult.jsonError s body)

/-- A provider environment in which every call succeeds with fixed ids,
used to instantiate the theorems at concrete inputs. -/
def demoEnv : ProviderEnv :=
  { defaultTenantId := "default-tenant"
  , baseUrl := "http://fa.local"
  , createTenantResp := fun _ => CallOutcome.ok (some "t1")
  , createAPIKeyResp := fun _ => CallOutcome.ok (some "k1")
  , createApplicationResp := fun _ => CallOutcome.ok (some "a1")
  , registerResp := fun _ => CallOutcome.ok () }

/-- A concrete sign-up submission. -/
def demoForm : List (String × String) :=
  [("organization", "acme-corp"), ("email", "a@b.c"), ("password", "hunter22")]

/-- A provider environment whose `createTenant` resolves 2xx but with an
empty body (no tenant id). -/
def emptyTenantEnv : ProviderEnv :=
  { demoEnv with createTenantResp := fun _ => CallOutcome.ok none }

/-- A provider environment whose final `register` call rejects with
status 400 and body "email already exists". -/
def emailExistsEnv : ProviderEnv :=
  { demoEnv with
    registerResp := fun _ => CallOutcome.err 400 "email already exists" }

/-- A provider environment whose `createTenant` call itself rejects. -/
def errTenantEnv : ProviderEnv :=
  { demoEnv with createTenantResp := fun _ => CallOutcome.err 500 "tenant boom" }

/-- The `createTenant` step always issues exactly one provider call:
`createTenant` through the default client with the tenant config. -/
lemma createTenant_fst (env : ProviderEnv) (org : String) :
    (createTenant env org).1
      = [Event.createTenantCall (ClientId.fusionAuthClientFor "default")
          (tenantRequestFor env org)] := by
  simp only [createTenant]
  rcases env.createTenantResp (tenantRequestFor env org) with v | ⟨s, b⟩
  · rcases v with _ | id
    · rfl
    · by_cases h : id = "" <;> simp [h]
  · rfl

/-- If the `createTenant` step returns an id, the provider resolved with
exactly that id and it is non-empty. -/
lemma createTenant_snd_ok (env : ProviderEnv) (org t : String)
    (h : (createTenant env org).2 = Except.ok t) :
    env.createTenantResp (tenantRequestFor env org) = CallOutcome.ok (some t)
    ∧ t ≠ "" := by
  simp only [createTenant] at h
  rcases hv : env.createTenantResp (tenantRequestFor env org) with v | ⟨s, b⟩
  · rw [hv] at h
    rcases v with _ | id
    · simp at h
    · by_cases hid : id = ""
      · simp [hid] at h
      · simp [hid] at h
        subst h
        exact ⟨rfl, hid⟩
  · rw [hv] at h; simp at h

/-- The `createApiKey` step always issues exactly one provider call:
`createAPIKey` through the default client with the key request. -/
lemma createApiKey_fst (env : ProviderEnv) (org t : String) :
    (createApiKey env org t).1
      = [Event.createAPIKeyCall (ClientId.fusionAuthClientFor "default")
          (apiKeyRequestFor org t)] := by
  simp only [createApiKey]
  rcases env.createAPIKeyResp (apiKeyRequestFor org t) with v | ⟨s, b⟩
  · rcases v with _ | key
    · rfl
    · by_cases h : key = "" <;> simp [h]
  · rfl

/-- If the `createApiKey` step returns a key, the provider resolved with
exactly that key and it is non-empty. -/
lemma createApiKey_snd_ok (env : ProviderEnv) (org t k : String)
    (h : (createApiKey env org t).2 = Except.ok k) :
    env.createAPIKeyResp (apiKeyRequestFor org t) = CallOutcome.ok (some k)
    ∧ k ≠ "" := by
  simp only [createApiKey] at h
  rcases hv : env.createAPIKeyResp (apiKeyRequestFor org t) with v | ⟨s, b⟩
  · rw [hv] at h
    rcases v with _ | key
    · simp at h
    · by_cases hk : key = ""
      · simp [hk] at h
      · simp [hk] at h
        subst h
        exact ⟨rfl, hk⟩
  · rw [hv] at h; simp at h

/-- The `createApplication` step always issues exactly one provider call,
through the freshly constructed client holding the scoped key. -/
lemma createApplication_fst (env : ProviderEnv) (org k : String) :
    (createApplication env org k).1
      = [Event.createApplicationCall (ClientId.newClient k env.baseUrl)
          (applicationRequestFor org)] := by
  simp only [createApplication]
  rcases env.createApplicationResp (applicationRequestFor org) with v | ⟨s, b⟩
  · rcases v with _ | appId
    · rfl
    · by_cases h : appId = "" <;> simp [h]
  · rfl

/-- If the `createApplication` step returns an id, the provider resolved
with exactly that id and it is non-empty. -/
lemma createApplication_snd_ok (env : ProviderEnv) (org k a : String)
    (h : (createApplication env org k).2 = Except.ok a) :
    env.createApplicationResp (applicationRequestFor org)
      = CallOutcome.ok (some a) ∧ a ≠ "" := by
  simp only [createApplication] at h
  rcases hv : env.createApplicationResp (applicationRequestFor org) with v | ⟨s, b⟩
  · rw [hv] at h
    rcases v with _ | appId
    · simp at h
    · by_cases ha : appId = ""
      · simp [ha] at h
      · simp [ha] at h
        subst h
        exact ⟨rfl, ha⟩
  · rw [hv] at h; simp at h

/-- When the tenant response carries a non-empty id, the `createTenant`
step reduces to one call and that id. -/
lemma createTenant_eq (env : ProviderEnv) (org t : String)
    (ht : env.createTenantResp (tenantRequestFor env org)
            = CallOutcome.ok (some t))
    (htne : t ≠ "") :
    createTenant env org
      = ([Event.createTenantCall (ClientId.fusionAuthClientFor "default")
           (tenantRequestFor env org)], Except.ok t) := by
  simp [createTenant, ht, htne]

/-- When the key response carries a non-empty key, the `createApiKey`
step reduces to one call and that key. -/
lemma createApiKey_eq (env : ProviderEnv) (org t k : String)
    (hk : env.createAPIKeyResp (apiKeyRequestFor org t)
            = CallOutcome.ok (some k))
    (hkne : k ≠ "") :
    createApiKey env org t
      = ([Event.createAPIKeyCall (ClientId.fusionAuthClientFor "default")
           (apiKeyRequestFor org t)], Except.ok k) := by
  simp [createApiKey, hk, hkne]

/-- Every event in an action trace is one of the four provisioning calls,
with its payload and client determined by the validated organization name
and the ids the provider returned at the earlier steps. -/
lemma mem_action_trace (env : ProviderEnv) (fd : List (String × String))
    (e : Event) (he : e ∈ (action env fd).1) :
    ∃ org, formField fd "organization" = some org ∧ org ≠ ""
      ∧ (e = Event.createTenantCall (ClientId.fusionAuthClientFor "default")
            (tenantRequestFor env org)
        ∨ ∃ t, env.createTenantResp (tenantRequestFor env org)
                 = CallOutcome.ok (some t) ∧ t ≠ ""
            ∧ (e = Event.createAPIKeyCall (ClientId.fusionAuthClientFor "default")
                  (apiKeyRequestFor org t)
              ∨ ∃ k, env.createAPIKeyResp (apiKeyRequestFor org t)
                       = CallOutcome.ok (some k) ∧ k ≠ ""
                  ∧ (e = Event.createApplicationCall
                        (ClientId.newClient k env.baseUrl)
                        (applicationRequestFor org)
                    ∨ ∃ a, env.createApplicationResp (applicationRequestFor org)
                             = CallOutcome.ok (some a) ∧ a ≠ ""
                        ∧ e = Event.registerCall
                              (ClientId.fusionAuthClientFor t)
                              { user := fd
                              , registration := { applicationId := a } }))) := by
  unfold action at he
  rcases horg : formField fd "organization" with _ | org
  · rw [horg] at he; simp at he
  · rw [horg] at he
    by_cases horgz : org = ""
    · simp [horgz] at he
    · simp only [horgz, if_false] at he
      refine ⟨org, rfl, horgz, ?_⟩
      rcases hct : createTenant env org with ⟨t1, r1⟩
      have ht1 : t1 = [Event.createTenantCall
          (ClientId.fusionAuthClientFor "default") (tenantRequestFor env org)] := by
        have h := createTenant_fst env org
        rw [hct] at h
        exact h
      rw [hct] at he
      rcases r1 with e1 | tenantId
      · simp [ht1] at he
        exact Or.inl he
      · simp only [] at he
        have hok1 := createTenant_snd_ok env org tenantId (by rw [hct])
        rcases hck : createApiKey env org tenantId with ⟨t2, r2⟩
        have ht2 : t2 = [Event.createAPIKeyCall
            (ClientId.fusionAuthClientFor "default") (apiKeyRequestFor org tenantId)] := by
          have h := createApiKey_fst env org tenantId
          rw [hck] at h
          exact h
        rw [hck] at he
        rcases r2 with e2 | key
        · simp [ht1, ht2] at he
          rcases he with he | he
          · exact Or.inl he
          · exact Or.inr ⟨tenantId, hok1.1, hok1.2, Or.inl he⟩
        · simp only [] at he
          have hok2 := createApiKey_snd_ok env org tenantId key (by rw [hck])
          rcases hca : createApplication env org key with ⟨t3, r3⟩
          have ht3 : t3 = [Event.createApplicationCall
              (ClientId.newClient key env.baseUrl) (applicationRequestFor org)] := by
            have h := createApplication_fst env org key
            rw [hca] at h
            exact h
          rw [hca] at he
          rcases r3 with e3 | appId
          · simp [ht1, ht2, ht3] at he
            rcases he with he | he | he
            · exact Or.inl he
            · exact Or.inr ⟨tenantId, hok1.1, hok1.2, Or.inl he⟩
            · exact Or.inr ⟨tenantId, hok1.1, hok1.2,
                Or.inr ⟨key, hok2.1, hok2.2, Or.inl he⟩⟩
          · simp only [] at he
            have hok3 := createApplication_snd_ok env org key appId (by rw [hca])
            rcases hreg : env.registerResp
                { user := fd, registration := { applicationId := appId } }
              with _ | ⟨s, b⟩ <;>
            · rw [hreg] at he
              simp [ht1, ht2, ht3] at he
              rcases he with he | he | he | he
              · exact Or.inl he
              · exact Or.inr ⟨tenantId, hok1.1, hok1.2, Or.inl he⟩
              · exact Or.inr ⟨tenantId, hok1.1, hok1.2,
                  Or.inr ⟨key, hok2.1, hok2.2, Or.inl he⟩⟩
              · exact Or.inr ⟨tenantId, hok1.1, hok1.2,
                  Or.inr ⟨key, hok2.1, hok2.2,
                    Or.inr ⟨appId, hok3.1, hok3.2, he⟩⟩⟩

/-- Whenever validation and step 1 succeed, the `createAPIKey` call is in
the trace, whatever happens afterwards. -/
lemma apiKey_event_mem (env : ProviderEnv) (fd : List (String × String))
    (org t : String)
    (horg : formField fd "organization" = some org) (horgz : org ≠ "")
    (ht : env.createTenantResp (tenantRequestFor env org)
            = CallOutcome.ok (some t))
    (htne : t ≠ "") :
    Event.createAPIKeyCall (ClientId.fusionAuthClientFor "default")
      (apiKeyRequestFor org t) ∈ (action env fd).1 := by
  unfold action
  rw [horg]
  simp only [horgz, if_false]
  rw [createTenant_eq env org t ht htne]
  simp only []
  rcases hck : createApiKey env org t with ⟨t2, r2⟩
  have ht2 : t2 = [Event.createAPIKeyCall
      (ClientId.fusionAuthClientFor "default") (apiKeyRequestFor org t)] := by
    have h := createApiKey_fst env org t
    rw [hck] at h
    exact h
  rcases r2 with e2 | key
  · simp [ht2]
  · simp only []
    rcases hca : createApplication env org key with ⟨t3, r3⟩
    rcases r3 with e3 | appId
    · simp [ht2]
    · simp only []
      rcases hreg : env.registerResp
          { user := fd, registration := { applicationId := appId } }
        with _ | ⟨s, b⟩ <;> simp [ht2]

/-- When all four calls succeed, the trace is exactly the four calls in
provisioning order. -/
lemma action_success_trace (env : ProviderEnv) (fd : List (String × String))
    (org t k a : String)
    (horg : formField fd "organization" = some org) (horgz : org ≠ "")
    (ht : env.createTenantResp (tenantRequestFor env org)
            = CallOutcome.ok (some t))
    (htne : t ≠ "")
    (hk : env.createAPIKeyResp (apiKeyRequestFor org t)
            = CallOutcome.ok (some k))
    (hkne : k ≠ "")
    (ha : env.createApplicationResp (applicationRequestFor org)
            = CallOutcome.ok (some a))
    (hane : a ≠ "")
    (hr : env.registerResp
            { user := fd, registration := { applicationId := a } }
            = CallOutcome.ok ()) :
    (action env fd).1
      = [ Event.createTenantCall (ClientId.fusionAuthClientFor "default")
            (tenantRequestFor env org)
        , Event.createAPIKeyCall (ClientId.fusionAuthClientFor "default")
            (apiKeyRequestFor org t)
        , Event.createApplicationCall (ClientId.newClient k env.baseUrl)
            (applicationRequestFor org)
        , Event.registerCall (ClientId.fusionAuthClientFor t)
            { user := fd, registration := { applicationId := a } } ] := by
  simp [action, createTenant, createApiKey, createApplication,
    horg, horgz, ht, htne, hk, hkne, ha, hane, hr]

/-- C1: when validation passes and all four provider calls succeed (each
returning its non-empty id or key), the action redirects to the
organization name followed by ".saasbp.io/signin".  The redirect target
string carries no scheme of its own; https handling is left to the
framework. -/
theorem C1_success_redirect (env : ProviderEnv)
    (fd : List (String × String)) (org t k a : String)
    (horg : formField fd "organization" = some org) (horgne : org ≠ "")
    (ht : env.createTenantResp (tenantRequestFor env org)
            = CallOutcome.ok (some t))
    (htne : t ≠ "")
    (hk : env.createAPIKeyResp (apiKeyRequestFor org t)
            = CallOutcome.ok (some k))
    (hkne : k ≠ "")
    (ha : env.createApplicationResp (applicationRequestFor org)
            = CallOutcome.ok (some a))
    (hane : a ≠ "")
    (hr : env.registerResp
            { user := fd, registration := { applicationId := a } }
            = CallOutcome.ok ()) :
    (action env fd).2 = ActionResult.redirected (org ++ ".saasbp.io/signin") := by
  simp [action, createTenant, createApiKey, createApplication,
    horg, ht, hk, ha, hr, horgne, htne, hkne, hane]

/-- C1 witness: a concrete successful run redirects to
"acme-corp.saasbp.io/signin". -/
theorem C1_success_redirect_witness :
    (action demoEnv demoForm).2
      = ActionResult.redirected ("acme-corp" ++ ".saasbp.io/signin") :=
  C1_success_redirect demoEnv demoForm "acme-corp" "t1" "k1" "a1"
    (by decide) (by decide) rfl (by decide) rfl (by decide) rfl (by decide) rfl

/-- C2: when the form has no `organization` entry, or its value is the
empty string (falsy for the `invariant` check), the action fails with the
invariant violation and the provider trace is empty: no provider call
is ever issued. -/
theorem C2_validation_before_any_call (env : ProviderEnv)
    (fd : List (String × String))
    (h : formField fd "organization" = none
         ∨ formField fd "organization" = some "") :
    (action env fd).1 = []
    ∧ (action env fd).2
        = ActionResult.thrown (ThrownError.invariantViolation invariantMsg) := by
  rcases h with h | h <;> simp [action, h]

/-- C2 witness: a submission with no organization field makes zero
provider calls and fails the invariant. -/
theorem C2_validation_before_any_call_witness :
    (action demoEnv [("email", "a@b.c")]).1 = []
    ∧ (action demoEnv [("email", "a@b.c")]).2
        = ActionResult.thrown (ThrownError.invariantViolation invariantMsg) :=
  C2_validation_before_any_call demoEnv [("email", "a@b.c")]
    (Or.inl (by decide))

/-- C3: when `createTenant` returns tenant id `t`, the subsequent
`createAPIKey` call is issued and its payload carries exactly `t` in the
`tenantId` field; moreover every `createAPIKey` call of the run carries
that same `t`. -/
theorem C3_apikey_carries_tenant_id (env : ProviderEnv)
    (fd : List (String × String)) (org t : String)
    (horg : formField fd "organization" = some org) (horgz : org ≠ "")
    (ht : env.createTenantResp (tenantRequestFor env org)
            = CallOutcome.ok (some t))
    (htne : t ≠ "") :
    (Event.createAPIKeyCall (ClientId.fusionAuthClientFor "default")
        (apiKeyRequestFor org t) ∈ (action env fd).1
      ∧ (apiKeyRequestFor org t).apiKey.tenantId = t)
    ∧ ∀ c r, Event.createAPIKeyCall c r ∈ (action env fd).1 →
        r.apiKey.tenantId = t := by
  refine ⟨⟨apiKey_event_mem env fd org t horg horgz ht htne, rfl⟩, ?_⟩
  intro c r hmem
  obtain ⟨org2, horg2, horgz2, hdisj⟩ := mem_action_trace env fd _ hmem
  rw [horg] at horg2
  injection horg2 with horg2
  subst horg2
  rcases hdisj with h | ⟨t2, ht2, htne2, h | ⟨k, hk2, hkne2, h | ⟨a, ha2, hane2, h⟩⟩⟩
  · simp at h
  · rw [ht] at ht2
    injection ht2 with ht2
    injection ht2 with ht2
    subst ht2
    injection h with h1 h2
    subst h2
    rfl
  · simp at h
  · simp at h

/-- C3 witness: in a concrete run whose tenant response is "t1", the
`createAPIKey` call carries tenantId "t1", as does every such call. -/
theorem C3_apikey_carries_tenant_id_witness :
    (Event.createAPIKeyCall (ClientId.fusionAuthClientFor "default")
        (apiKeyRequestFor "acme-corp" "t1") ∈ (action demoEnv demoForm).1
      ∧ (apiKeyRequestFor "acme-corp" "t1").apiKey.tenantId = "t1")
    ∧ ∀ c r, Event.createAPIKeyCall c r ∈ (action demoEnv demoForm).1 →
        r.apiKey.tenantId = "t1" :=
  C3_apikey_carries_tenant_id demoEnv demoForm "acme-corp" "t1"
    (by decide) (by decide) rfl (by decide)

/-- C4: when `createTenant` resolves but its payload lacks a tenant id
(an absent field or the falsy empty string, as after a 2xx with an empty
body), the action throws the descriptive tenant error and the trace stops
at the single `createTenant` call: neither `createAPIKey` nor any later
step is invoked. -/
theorem C4_empty_tenant_response_fails (env : ProviderEnv)
    (fd : List (String × String)) (org : String)
    (horg : formField fd "organization" = some org) (horgne : org ≠ "")
    (ht : env.createTenantResp (tenantRequestFor env org) = CallOutcome.ok none
          ∨ env.createTenantResp (tenantRequestFor env org)
              = CallOutcome.ok (some "")) :
    (action env fd).2 = ActionResult.thrown (ThrownError.appError tenantEmptyMsg)
    ∧ (action env fd).1
        = [Event.createTenantCall (ClientId.fusionAuthClientFor "default")
            (tenantRequestFor env org)] := by
  rcases ht with ht | ht <;>
    simp [action, createTenant, horg, horgne, ht]

/-- C4 witness: a concrete run whose tenant response is an empty body
throws the descriptive error after exactly one provider call. -/
theorem C4_empty_tenant_response_fails_witness :
    (action emptyTenantEnv demoForm).2
      = ActionResult.thrown (ThrownError.appError tenantEmptyMsg)
    ∧ (action emptyTenantEnv demoForm).1
        = [Event.createTenantCall (ClientId.fusionAuthClientFor "default")
            (tenantRequestFor emptyTenantEnv "acme-corp")] :=
  C4_empty_tenant_response_fails emptyTenantEnv demoForm "acme-corp"
    (by decide) (by decide) (Or.inl rfl)

/-- C5: when steps 1 to 3 succeed and the final `register` call rejects
with status 400 and body "email already exists", the action returns (does
not throw) the json result with status 400 and error message "email
already exists". -/
theorem C5_register_error_returned_as_json (env : ProviderEnv)
    (fd : List (String × String)) (org t k a : String)
    (horg : formField fd "organization" = some org) (horgne : org ≠ "")
    (ht : env.createTenantResp (tenantRequestFor env org)
            = CallOutcome.ok (some t))
    (htne : t ≠ "")
    (hk : env.createAPIKeyResp (apiKeyRequestFor org t)
            = CallOutcome.ok (some k))
    (hkne : k ≠ "")
    (ha : env.createApplicationResp (applicationRequestFor org)
            = CallOutcome.ok (some a))
    (hane : a ≠ "")
    (hr : env.registerResp
            { user := fd, registration := { applicationId := a } }
            = CallOutcome.err 400 "email already exists") :
    (action env fd).2 = ActionResult.jsonError 400 "email already exists" := by
  simp [action, createTenant, createApiKey, createApplication,
    horg, ht, hk, ha, hr, horgne, htne, hkne, hane]

/-- C5 witness: a concrete run whose register call rejects with 400
"email already exists" returns that json error. -/
theorem C5_register_error_returned_as_json_witness :
    (action emailExistsEnv demoForm).2
      = ActionResult.jsonError 400 "email already exists" :=
  C5_register_error_returned_as_json emailExistsEnv demoForm
    "acme-corp" "t1" "k1" "a1"
    (by decide) (by decide) rfl (by decide) rfl (by decide) rfl (by decide) rfl

/-- C6: every `createApplication` call issued by the action names the
application after the submitted organization name followed by " App", and
its role list is exactly the two configured roles: `admin` (not default)
and `member` (default). -/
theorem C6_application_name_and_roles (env : ProviderEnv)
    (fd : List (String × String)) (c : ClientId) (r : ApplicationRequest)
    (hmem : Event.createApplicationCall c r ∈ (action env fd).1) :
    (∃ org, formField fd "organization" = some org
        ∧ r.application.name = org ++ " App")
    ∧ r.application.roles
        = [ { name := "admin"
            , description := "Admin role inside the organization"
            , isDefault := false }
          , { name := "member"
            , description := "Member role"
            , isDefault := true } ] := by
  obtain ⟨org, horg, horgz, hdisj⟩ := mem_action_trace env fd _ hmem
  rcases hdisj with h | ⟨t, ht, htne, h | ⟨k, hk, hkne, h | ⟨a, ha, hane, h⟩⟩⟩
  · simp at h
  · simp at h
  · injection h with h1 h2
    subst h2
    exact ⟨⟨org, horg, rfl⟩, rfl⟩
  · simp at h

/-- C6 witness: the application request of a concrete run is named
"acme-corp App" and carries exactly the admin and member roles. -/
theorem C6_application_name_and_roles_witness :
    (∃ org, formField demoForm "organization" = some org
        ∧ (applicationRequestFor "acme-corp").application.name = org ++ " App")
    ∧ (applicationRequestFor "acme-corp").application.roles
        = [ { name := "admin"
            , description := "Admin role inside the organization"
            , isDefault := false }
          , { name := "member"
            , description := "Member role"
            , isDefault := true } ] :=
  C6_application_name_and_roles demoEnv demoForm
    (ClientId.newClient "k1" demoEnv.baseUrl)
    (applicationRequestFor "acme-corp") (by decide)

/-- C7: failures of steps 1 to 3 (tenant, key, application) escape the
action as thrown errors carrying the raw provider rejection, while a
failure of the final register step is caught and returned as the
structured json result with the provider status and body. -/
theorem C7_error_channel_asymmetry (env : ProviderEnv)
    (fd : List (String × String)) (org : String)
    (horg : formField fd "organization" = some org) (horgz : org ≠ "") :
    (∀ s b, env.createTenantResp (tenantRequestFor env org)
          = CallOutcome.err s b →
        (action env fd).2 = ActionResult.thrown (ThrownError.clientError s b))
    ∧ (∀ t s b, env.createTenantResp (tenantRequestFor env org)
          = CallOutcome.ok (some t) → t ≠ "" →
        env.createAPIKeyResp (apiKeyRequestFor org t) = CallOutcome.err s b →
        (action env fd).2 = ActionResult.thrown (ThrownError.clientError s b))
    ∧ (∀ t k s b, env.createTenantResp (tenantRequestFor env org)
          = CallOutcome.ok (some t) → t ≠ "" →
        env.createAPIKeyResp (apiKeyRequestFor org t)
          = CallOutcome.ok (some k) → k ≠ "" →
        env.createApplicationResp (applicationRequestFor org)
          = CallOutcome.err s b →
        (action env fd).2 = ActionResult.thrown (ThrownError.clientError s b))
    ∧ (∀ t k a s b, env.createTenantResp (tenantRequestFor env org)
          = CallOutcome.ok (some t) → t ≠ "" →
        env.createAPIKeyResp (apiKeyRequestFor org t)
          = CallOutcome.ok (some k) → k ≠ "" →
        env.createApplicationResp (applicationRequestFor org)
          = CallOutcome.ok (some a) → a ≠ "" →
        env.registerResp { user := fd, registration := { applicationId := a } }
          = CallOutcome.err s b →
        (action env fd).2 = ActionResult.jsonError s b) := by
  refine ⟨?_, ?_, ?_, ?_⟩
  · intro s b h
    simp [action, createTenant, horg, horgz, h]
  · intro t s b ht htne h
    simp [action, createTenant, createApiKey, horg, horgz, ht, htne, h]
  · intro t k s b ht htne hk hkne h
    simp [action, createTenant, createApiKey, createApplication,
      horg, horgz, ht, htne, hk, hkne, h]
  · intro t k a s b ht htne hk hkne ha hane h
    simp [action, createTenant, createApiKey, createApplication,
      horg, horgz, ht, htne, hk, hkne, ha, hane, h]

/-- C7 witness: in a concrete run whose `createTenant` call rejects with
500, the action result is the uncaught thrown error, not a json result. -/
theorem C7_error_channel_asymmetry_witness :
    (action errTenantEnv demoForm).2
      = ActionResult.thrown (ThrownError.clientError 500 "tenant boom") :=
  (C7_error_channel_asymmetry errTenantEnv demoForm "acme-corp"
    (by decide) (by decide)).1 500 "tenant boom" rfl

/-- C8: in a successful run, the `createApplication` call is issued
through the freshly constructed client holding the scoped key from step 2
(never the default client), and the `register` call is issued through the
client scoped by the tenant id (never the scoped-key client). -/
theorem C8_credential_scoping (env : ProviderEnv)
    (fd : List (String × String)) (org t k a : String)
    (horg : formField fd "organization" = some org) (horgz : org ≠ "")
    (ht : env.createTenantResp (tenantRequestFor env org)
            = CallOutcome.ok (some t))
    (htne : t ≠ "")
    (hk : env.createAPIKeyResp (apiKeyRequestFor org t)
            = CallOutcome.ok (some k))
    (hkne : k ≠ "")
    (ha : env.createApplicationResp (applicationRequestFor org)
            = CallOutcome.ok (some a))
    (hane : a ≠ "")
    (hr : env.registerResp
            { user := fd, registration := { applicationId := a } }
            = CallOutcome.ok ()) :
    (∀ c r, Event.createApplicationCall c r ∈ (action env fd).1 →
        c = ClientId.newClient k env.baseUrl)
    ∧ Event.createApplicationCall (ClientId.newClient k env.baseUrl)
        (applicationRequestFor org) ∈ (action env fd).1
    ∧ ClientId.newClient k env.baseUrl ≠ ClientId.fusionAuthClientFor "default"
    ∧ (∀ c r, Event.registerCall c r ∈ (action env fd).1 →
        c = ClientId.fusionAuthClientFor t
        ∧ c ≠ ClientId.newClient k env.baseUrl)
    ∧ Event.registerCall (ClientId.fusionAuthClientFor t)
        { user := fd, registration := { applicationId := a } }
        ∈ (action env fd).1 := by
  have htrace := action_success_trace env fd org t k a
    horg horgz ht htne hk hkne ha hane hr
  refine ⟨?_, ?_, by simp, ?_, ?_⟩
  · intro c r hcr
    rw [htrace] at hcr
    simp at hcr
    exact hcr.1
  · rw [htrace]; simp
  · intro c r hcr
    rw [htrace] at hcr
    simp at hcr
    exact ⟨hcr.1, by simp [hcr.1]⟩
  · rw [htrace]; simp

/-- C8 witness: the concrete successful run issues its application call
through the new scoped-key client and its register call through the
tenant-scoped client. -/
theorem C8_credential_scoping_witness :
    (∀ c r, Event.createApplicationCall c r ∈ (action demoEnv demoForm).1 →
        c = ClientId.newClient "k1" demoEnv.baseUrl)
    ∧ Event.createApplicationCall (ClientId.newClient "k1" demoEnv.baseUrl)
        (applicationRequestFor "acme-corp") ∈ (action demoEnv demoForm).1
    ∧ ClientId.newClient "k1" demoEnv.baseUrl
        ≠ ClientId.fusionAuthClientFor "default"
    ∧ (∀ c r, Event.registerCall c r ∈ (action demoEnv demoForm).1 →
        c = ClientId.fusionAuthClientFor "t1"
        ∧ c ≠ ClientId.newClient "k1" demoEnv.baseUrl)
    ∧ Event.registerCall (ClientId.fusionAuthClientFor "t1")
        { user := demoForm, registration := { applicationId := "a1" } }
        ∈ (action demoEnv demoForm).1 :=
  C8_credential_scoping demoEnv demoForm "acme-corp" "t1" "k1" "a1"
    (by decide) (by decide) rfl (by decide) rfl (by decide) rfl (by decide) rfl

/-- C9: every `createApplication` call issued by the action carries the
top-level `role` field set to the first configured role, the admin role
object. -/
theorem C9_top_level_role_is_first_configured (env : ProviderEnv)
    (fd : List (String × String)) (c : ClientId) (r : ApplicationRequest)
    (hmem : Event.createApplicationCall c r ∈ (action env fd).1) :
    r.role = configuredRoles.head?
    ∧ r.role = some { name := "admin"
                    , description := "Admin role inside the organization"
                    , isDefault := false } := by
  obtain ⟨org, horg, horgz, hdisj⟩ := mem_action_trace env fd _ hmem
  rcases hdisj with h | ⟨t, ht, htne, h | ⟨k, hk, hkne, h | ⟨a, ha, hane, h⟩⟩⟩
  · simp at h
  · simp at h
  · injection h with h1 h2
    subst h2
    exact ⟨rfl, rfl⟩
  · simp at h

/-- C9 witness: the application request of a concrete run carries the
admin role in its top-level `role` field. -/
theorem C9_top_level_role_is_first_configured_witness :
    (applicationRequestFor "acme-corp").role = configuredRoles.head?
    ∧ (applicationRequestFor "acme-corp").role
        = some { name := "admin"
               , description := "Admin role inside the organization"
               , isDefault := false } :=
  C9_top_level_role_is_first_configured demoEnv demoForm
    (ClientId.newClient "k1" demoEnv.baseUrl)
    (applicationRequestFor "acme-corp") (by decide)

/-- C10: every `createApplication` call issued by the action configures
the application login with `generateRefreshTokens = true`. -/
theorem C10_refresh_tokens_enabled (env : ProviderEnv)
    (fd : List (String × String)) (c : ClientId) (r : ApplicationRequest)
    (hmem : Event.createApplicationCall c r ∈ (action env fd).1) :
    r.application.loginConfiguration.generateRefreshTokens = true := by
  obtain ⟨org, horg, horgz, hdisj⟩ := mem_action_trace env fd _ hmem
  rcases hdisj with h | ⟨t, ht, htne, h | ⟨k, hk, hkne, h | ⟨a, ha, hane, h⟩⟩⟩
  · simp at h
  · simp at h
  · injection h with h1 h2
    subst h2
    rfl
  · simp at h

/-- C10 witness: the application request of a concrete run has
`generateRefreshTokens = true`. -/
theorem C10_refresh_tokens_enabled_witness :
    (applicationRequestFor "acme-corp").application.loginConfiguration.generateRefreshTokens
      = true :=
  C10_refresh_tokens_enabled demoEnv demoForm
    (ClientId.newClient "k1" demoEnv.baseUrl)
    (applicationRequestFor "acme-corp") (by decide)

end OrgSignup
